import Mathlib

/-!
Verification of the IDAES-UI flowsheet visualization back-end
(`idaes_ui/fv/model_server.py` and `idaes_ui/fv/fsvis.py`).

The Python source is shallowly embedded: pure helpers become Lean
functions, the mutable server object becomes an explicit state record
threaded through the operations, the file system becomes an explicit
map from paths to file contents, and Python exceptions become
`Except`/error sum types.  Components of the repository that are not
part of the two source files (the `persist` data-store layer and the
`FlowsheetDiff` class of `flowsheet.py`) are modelled from the
specification; each such definition says so in its doc comment.
-/

namespace IdaesUI

/-! ## Canonical flowsheet names

Embedding of `FlowsheetServer.canonical_flowsheet_name`
(`model_server.py`, lines 147-161):

    return re.sub(r"-+", "-", re.sub(r"[^a-zA-Z0-9-._]", "-", name))

The inner `re.sub` replaces every character outside the class
`[a-zA-Z0-9-._]` by a dash; the outer `re.sub` replaces every maximal
run of dashes by a single dash.
-/

/-- The character class `[a-zA-Z0-9-._]` of the inner regular
expression: the characters the substitution leaves unchanged. -/
def isKeptChar (c : Char) : Bool :=
  ( 'a' ≤ c && c ≤ 'z') || ( 'A' ≤ c && c ≤ 'Z') || ( '0' ≤ c && c ≤ '9') ||
  c == '-' || c == '.' || c == '_'

/-- One step of `re.sub(r"[^a-zA-Z0-9-._]", "-", name)`: a kept
character is unchanged, anything else becomes a dash. -/
def replaceChar (c : Char) : Char :=
  if isKeptChar c then c else '-'

/-- The outer substitution `re.sub(r"-+", "-", s)` on a character
list: every maximal run of dashes collapses to a single dash.  A dash
immediately followed by another dash is dropped (so the last dash of
each run is kept). -/
def collapseDashes : List Char → List Char
  | [] => []
  | [c] => [c]
  | c1 :: c2 :: rest =>
    if c1 == '-' && c2 == '-' then collapseDashes (c2 :: rest)
    else c1 :: collapseDashes (c2 :: rest)

/-- Embedding of `FlowsheetServer.canonical_flowsheet_name`
(`model_server.py` 147-161). -/
def canonical_flowsheet_name (name : String) : String :=
  String.mk (collapseDashes (name.data.map replaceChar))

/-- Auxiliary predicate: `true` iff the list has no two adjacent
dashes. -/
def noDoubleDash : List Char → Bool
  | [] => true
  | [_] => true
  | c1 :: c2 :: rest => !(c1 == '-' && c2 == '-') && noDoubleDash (c2 :: rest)

/-! ## Documents, diff and merge

A flowsheet document is a JSON object: a mapping from top-level keys
to JSON values.  The embedding keeps the value type `V` abstract with
decidable equality standing for deep structural equality over the
JSON value model (mappings, sequences, scalars); a document is the
association list of its top-level entries, looked up by first
occurrence exactly as a Python `dict` with unique keys.

`FlowsheetDiff` lives in `idaes_ui/fv/flowsheet.py`, which is not
among the source files; it is modelled from the specification,
section 4.4.
-/

/-- Lookup of a top-level key in a document (Python `d[k]` /
`k in d`). -/
def docLookup {V : Type} (k : String) : List (String × V) → Option V
  | [] => none
  | (k1, v) :: rest => if k1 = k then some v else docLookup k rest

/-- The top-level keys of a document, in order. -/
def docKeys {V : Type} (d : List (String × V)) : List String :=
  d.map Prod.fst

/-- Modelled from the spec: `FlowsheetDiff` diff computation
(section 4.4, step 4): the set of top-level keys present in either
document with unequal values, value equality being deep structural
equality.  `len(diff)` is its length and `if not diff` tests it for
emptiness. -/
def diffKeys {V : Type} [DecidableEq V] (saved live : List (String × V)) : List String :=
  (docKeys saved ++ docKeys live).dedup.filter
    (fun k => decide (docLookup k saved ≠ docLookup k live))

/-- Modelled from the spec: `FlowsheetDiff.merged` (section 4.4,
step 6): key-level override — for each top-level key present in the
live document the live value wins, and a key present only in the
stored document keeps its stored value. -/
def mergedDoc {V : Type} [DecidableEq V] (saved live : List (String × V)) :
    List (String × V) :=
  live ++ saved.filter (fun kv => (docLookup kv.1 live).isNone)

/-- Python `dict` assignment `d[key] = value`: replace the binding in
place if the key exists, otherwise append. -/
def dictInsert {V : Type} (l : List (String × V)) (k : String) (v : V) :
    List (String × V) :=
  match l with
  | [] => [(k, v)]
  | (k1, v1) :: rest =>
    if k1 = k then (k, v) :: rest else (k1, v1) :: dictInsert rest k v

/-! ## The flowsheet server state

`FlowsheetServer` (`model_server.py` 53-249) holds `_flowsheets`
(id to live model object), `_dsm` (the `persist.DataStoreManager`,
id to bound store) and `_settings_block`.  The `persist` module is
not among the source files; its manager is modelled from the spec:
a bound store either holds a persisted document or was never written.
`DataStoreManager.load` raises `KeyError` for an identifier that was
never added, and the bound store raises `ValueError` (the
distinguishable not-found condition of section 4.1) when its file was
never written.  The model object type `Obj` and the serialized value
type `V` are abstract; the external `FlowsheetSerializer`
(section 6) is a parameter returning either a document or the error
message of a raised `ValueError`. -/
structure FlowsheetServer (Obj V : Type) where
  flowsheets : List (String × Obj)
  dsm : List (String × Option (List (String × V)))
  settings_block : List (String × V)

/-- Embedding of `FlowsheetServer.add_setting` (`model_server.py`
85-98): `self._settings_block[key] = value`. -/
def add_setting {Obj V : Type} (s : FlowsheetServer Obj V) (key : String) (value : V) :
    FlowsheetServer Obj V :=
  { s with settings_block := dictInsert s.settings_block key value }

/-- Embedding of `FlowsheetServer.get_setting` (`model_server.py`
100-112): the stored value, or `None` (with a logged warning) when
the key is not in the settings block. -/
def get_setting {Obj V : Type} (s : FlowsheetServer Obj V) (key : String) : Option V :=
  docLookup key s.settings_block

/-- Embedding of `FlowsheetServerHandler._get_setting`
(`model_server.py` 344-354): unconditionally writes a 200 JSON
response `{"setting_value": <value>}`, with `None` rendered as JSON
null (modelled by the `Option`). -/
def handler_get_setting {Obj V : Type} (s : FlowsheetServer Obj V) (setting_key : String) :
    Nat × Option V :=
  (200, get_setting s setting_key)

/-- The error taxonomy of `update_flowsheet` (`model_server.py`
179-223 and the `errors` module). -/
inductive UpdateError where
  | flowsheetUnknown (id : String)
  | flowsheetNotFoundInDatastore (id : String)
  | flowsheetNotFoundInMemory (id : String)
  | processingError (msg : String)
deriving DecidableEq, Repr

/-- Embedding of `DataStoreManager.save` as reached through
`FlowsheetServer.save_flowsheet` (`model_server.py` 165-177):
overwrite the persisted document of the bound store.  Modelled from
the spec (section 4.1): `save` atomically overwrites the store
content. -/
def dsm_save {Obj V : Type} (s : FlowsheetServer Obj V) (id : String)
    (doc : List (String × V)) : FlowsheetServer Obj V :=
  { s with dsm := dictInsert s.dsm id (some doc) }

/-- Embedding of `FlowsheetServer.update_flowsheet`
(`model_server.py` 179-223).

* `_load_flowsheet` is `self._dsm.load(id_)`; its `KeyError` becomes
  `FlowsheetUnknown`, its `ValueError` becomes
  `FlowsheetNotFoundInDatastore`.
* `_get_flowsheet_obj` is `self._flowsheets[id_]`; `KeyError` becomes
  `FlowsheetNotFoundInMemory`.
* `_serialize_flowsheet` failure (`ValueError`) becomes
  `ProcessingError`.
* With an empty diff nothing is saved and, per the spec
  (section 4.4, step 5), the stored document is returned unchanged;
  otherwise the merged document is saved and returned. -/
def update_flowsheet {Obj V : Type} [DecidableEq V]
    (ser : String → Obj → Except String (List (String × V)))
    (s : FlowsheetServer Obj V) (id : String) :
    Except UpdateError (FlowsheetServer Obj V × List (String × V)) :=
  match docLookup id s.dsm with
  | none => .error (.flowsheetUnknown id)
  | some none => .error (.flowsheetNotFoundInDatastore id)
  | some (some saved) =>
    match docLookup id s.flowsheets with
    | none => .error (.flowsheetNotFoundInMemory id)
    | some obj =>
      match ser id obj with
      | .error e => .error (.processingError ("Cannot serialize flowsheet: " ++ e))
      | .ok obj_dict =>
        if diffKeys saved obj_dict = [] then
          .ok (s, saved)
        else
          .ok (dsm_save s id (mergedDoc saved obj_dict), mergedDoc saved obj_dict)

/-! ## Diagnostics dispatch

Embedding of `FlowsheetServerHandler._put_diagnostic`
(`model_server.py` 408-455).  The handler looks up the flowsheet
object (`self.server._get_flowsheet_obj(id_)`), builds a
`DiagnosticsToolbox` around it, and dispatches on the caller-supplied
`function_name` with `hasattr`/`getattr`: whatever attribute of the
toolbox instance carries that name is fetched and called.  The set of
attribute names of the toolbox instance is the abstract `attrs`
parameter and the output captured from a call is the abstract `run`
parameter.  When `hasattr` fails the handler writes a 500
`Unknown function` response and then, because `output_stream` was
never assigned, hits a `NameError` that the surrounding
`try`/`except` turns into a second 500 response.  When the flowsheet
id is unknown, the `KeyError` is likewise turned into a single 500
response.  The result pairs the invoked attribute name (if any) with
the list of written responses. -/
def put_diagnostic (flowsheet_ids attrs : List String) (run : String → String)
    (id function_name : String) : Option String × List (Nat × String) :=
  if flowsheet_ids.contains id then
    if attrs.contains function_name then
      (some function_name, [(200, run function_name)])
    else
      (none, [(500, "Unknown function: " ++ function_name),
              (500, "Error running diagnostics")])
  else
    (none, [(500, "Error running diagnostics")])

/-! ## Save-path resolution (`fsvis.py`)

The file system is a map from paths to file contents; a path is a
parent directory plus a file name, so that `save_path.parent` and
`save_dir / save_file` are the projections and the pairing. -/

/-- A file path: parent directory and file name. -/
structure FsPath where
  dir : String
  file : String
deriving DecidableEq, Repr

/-- The file system: contents of each existing path. -/
def FileSys : Type := FsPath → Option String

/-- `path.exists()`. -/
def pathExists (fs : FileSys) (p : FsPath) : Bool :=
  (fs p).isSome

/-- Writing a file (used for `save_path.open("w")`, which truncates
the file to empty content). -/
def fsWrite (fs : FileSys) (p : FsPath) (content : String) : FileSys :=
  fun q => if q = p then some content else fs q

/-- The versioned file name `f"{name}-{counter}.json"`
(`fsvis.py` 252). -/
def versionedFile (name : String) (counter : Nat) : String :=
  name ++ "-" ++ toString counter ++ ".json"

/-- `sys.maxsize` on a 64-bit CPython build, substituted for a zero
`max_versions` (`fsvis.py` 248-249). -/
def sysMaxsize : Nat :=
  9223372036854775807

/-- `MAX_SAVED_VERSIONS` (`fsvis.py` 38-40): maximum number of saved
versions of the same save file; zero allows any number. -/
def MAX_SAVED_VERSIONS : Nat :=
  100

/-- The message of the `TooManySavedVersions` error raised at
`fsvis.py` 255-261; it carries the ceiling value and the base name. -/
def tooManyVersionsMsg (max_versions : Nat) (name : String) : String :=
  "Found " ++ toString max_versions ++ " numbered files of form " ++ name ++
  "-<num>.json. That is too many."

/-- The `while save_path.exists() and counter < max_versions` loop of
`fsvis.py` 250-253, with `rem = max_versions - counter` as the
structural fuel: when `rem = 0` the bound `counter < max_versions`
fails and the loop stops; otherwise the loop continues exactly when
the current path exists, incrementing the counter and moving to the
next versioned path.  Returns the final `save_path` and `counter`. -/
def probeLoop (fs : FileSys) (save_dir name : String) :
    Nat → FsPath → Nat → FsPath × Nat
  | 0, save_path, counter => (save_path, counter)
  | rem + 1, save_path, counter =>
    if pathExists fs save_path then
      probeLoop fs save_dir name rem
        ⟨save_dir, versionedFile name (counter + 1)⟩ (counter + 1)
    else (save_path, counter)

/-- The ceiling actually used by the probe: `max_versions`, with zero
replaced by `sys.maxsize` (`fsvis.py` 248-249). -/
def effectiveMaxVersions (max_versions : Nat) : Nat :=
  if max_versions = 0 then sysMaxsize else max_versions

/-- Embedding of `_handle_existing_save_path` (`fsvis.py` 234-264):
with `overwrite`, an existing file is truncated (`open("w")`) and the
path reused; a non-existing path is returned as is; otherwise the
versioned names are probed and the error is raised exactly when the
final counter equals the (effective) ceiling. -/
def handle_existing_save_path (fs : FileSys) (name : String) (save_path : FsPath)
    (max_versions : Nat) (overwrite : Bool) : FileSys × Except String FsPath :=
  if overwrite then
    if pathExists fs save_path then (fsWrite fs save_path "", .ok save_path)
    else (fs, .ok save_path)
  else if !(pathExists fs save_path) then (fs, .ok save_path)
  else
    let maxv := effectiveMaxVersions max_versions
    let pr := probeLoop fs save_path.dir name maxv save_path 0
    if pr.2 = maxv then (fs, .error (tooManyVersionsMsg maxv name))
    else (fs, .ok pr.1)

/-- The errors `visualize` raises around save-path resolution and
registration (`fsvis.py` 160-161 and 176-179). -/
inductive VisError where
  | runtimeError (msg : String)
  | visualizerError (msg : String)
deriving DecidableEq, Repr

/-- Embedding of the save-location slice of `visualize`
(`fsvis.py` 141-179) for a file-backed save path: if the path exists
and `load_from_saved` holds, the saved file is loaded and no path
resolution happens; otherwise `_handle_existing_save_path` resolves
the path (a `TooManySavedVersions` error is re-raised as
`RuntimeError`); finally `web_server.add_flowsheet` registers the
flowsheet, and its `ProcessingError`/`DatastoreError` is re-raised as
`VisualizerError`.  `add_flowsheet` serializes the model and saves it
through the `persist` layer (not among the source files), so its
effect on the file system is the abstract parameter `add_flowsheet`,
returning the new file system and the message of a raised error, if
any. -/
def visualize_save_setup (fs0 : FileSys) (name : String) (save_path : FsPath)
    (load_from_saved overwrite : Bool)
    (add_flowsheet : FileSys → FsPath → FileSys × Option String) :
    FileSys × Except VisError FsPath :=
  if pathExists fs0 save_path && load_from_saved then
    match add_flowsheet fs0 save_path with
    | (fs1, some err) => (fs1, .error (.visualizerError ("Cannot add flowsheet: " ++ err)))
    | (fs1, none) => (fs1, .ok save_path)
  else
    match handle_existing_save_path fs0 name save_path MAX_SAVED_VERSIONS overwrite with
    | (fs1, .error e) => (fs1, .error (.runtimeError ("In visualize(): " ++ e)))
    | (fs1, .ok p) =>
      match add_flowsheet fs1 p with
      | (fs2, some err) => (fs2, .error (.visualizerError ("Cannot add flowsheet: " ++ err)))
      | (fs2, none) => (fs2, .ok p)

/-! ## Concrete instances used by witnesses and counterexamples -/

/-- A small JSON value universe for concrete documents: a number or a
nested object of numbers (enough for the spec's merge example). -/
def JV : Type := Int ⊕ List (String × Int)

instance : DecidableEq JV :=
  inferInstanceAs (DecidableEq (Int ⊕ List (String × Int)))

/-- The JSON number `n`. -/
def jnum (n : Int) : JV := Sum.inl n

/-- A JSON object of numbers. -/
def jobj (l : List (String × Int)) : JV := Sum.inr l

/-- The stored document of the spec example:
`{"a": 1, "layout": {"x": 5}}`. -/
def exStored : List (String × JV) := [("a", jnum 1), ("layout", jobj [("x", 5)])]

/-- The live document of the spec example: `{"a": 2}`. -/
def exLive : List (String × JV) := [("a", jnum 2)]

/-- A server with one flowsheet `fs` whose store holds `exStored`. -/
def exServer : FlowsheetServer Unit JV :=
  ⟨[("fs", ())], [("fs", some exStored)], []⟩

/-- A serializer producing the live document of the example. -/
def exSer : String → Unit → Except String (List (String × JV)) :=
  fun _ _ => .ok exLive

/-- A server whose store already holds the live document. -/
def exServerSame : FlowsheetServer Unit JV :=
  ⟨[("fs", ())], [("fs", some exLive)], []⟩

/-- A server with a registered store that was never written. -/
def exServerNoDoc : FlowsheetServer Unit JV :=
  ⟨[("fs", ())], [("fs", none)], []⟩

/-- A server whose store holds a document but whose live object is
gone. -/
def exServerNoMem : FlowsheetServer Unit JV :=
  ⟨[], [("fs", some exStored)], []⟩

/-- A serializer that always fails. -/
def exSerFail : String → Unit → Except String (List (String × JV)) :=
  fun _ _ => .error "boom"

/-- An empty directory. -/
def fsEmpty : FileSys := fun _ => none

/-- A directory containing only `x.json`. -/
def fsX0 : FileSys := fun p =>
  if p = ⟨"d", "x.json"⟩ then some "doc" else none

/-- A directory containing `x.json` and `x-1.json`. -/
def fsX1 : FileSys := fun p =>
  if p = ⟨"d", "x.json"⟩ then some "doc"
  else if p = ⟨"d", "x-1.json"⟩ then some "doc"
  else none

/-- A directory containing `y.json`, `y-1.json` and `y-2.json`. -/
def fsY : FileSys := fun p =>
  if p = ⟨"d", "y.json"⟩ then some "doc"
  else if p = ⟨"d", "y-1.json"⟩ then some "doc"
  else if p = ⟨"d", "y-2.json"⟩ then some "doc"
  else none

/-- A directory containing `name.json`, `name-1.json` and
`name-2.json`. -/
def fsN : FileSys := fun p =>
  if p = ⟨"d", "name.json"⟩ then some "doc"
  else if p = ⟨"d", "name-1.json"⟩ then some "doc"
  else if p = ⟨"d", "name-2.json"⟩ then some "doc"
  else none

/-- A directory whose `z.json` holds a previously persisted
document. -/
def fsZ : FileSys := fun p =>
  if p = ⟨"d", "z.json"⟩ then some "old document" else none

/-- A registration step that always fails before writing anything
(a serializer failure inside `add_flowsheet`). -/
def addFlowsheetFail : FileSys → FsPath → FileSys × Option String :=
  fun fs _ => (fs, some "cannot serialize")

/-! ## Canonicalization theorems (claims C3 and C8) -/

/-- Every character produced by the inner substitution is in the kept
class (a dash is itself kept). -/
theorem isKeptChar_replaceChar (c : Char) : isKeptChar (replaceChar c) = true := by
  by_cases h : isKeptChar c
  · simp [replaceChar, h]
  · simp only [replaceChar, h, if_false, Bool.false_eq_true]
    decide

/-- Collapsing dash runs only removes characters. -/
theorem mem_collapseDashes : ∀ (l : List Char) (c : Char), c ∈ collapseDashes l → c ∈ l
  | [], c, h => by simp [collapseDashes] at h
  | [a], c, h => by simpa [collapseDashes] using h
  | a :: b :: rest, c, h => by
    by_cases hab : (a == '-' && b == '-') = true
    · have := mem_collapseDashes (b :: rest) c (by simpa [collapseDashes, hab] using h)
      exact List.mem_cons_of_mem a this
    · simp only [collapseDashes, hab, if_false, Bool.false_eq_true] at h
      rcases List.mem_cons.mp h with h1 | h2
      · exact List.mem_cons.mpr (Or.inl h1)
      · exact List.mem_cons_of_mem a (mem_collapseDashes (b :: rest) c h2)

/-- Collapsing dash runs keeps the first character. -/
theorem head_collapseDashes : ∀ (l : List Char), (collapseDashes l).head? = l.head?
  | [] => rfl
  | [_] => rfl
  | a :: b :: rest => by
    by_cases hab : (a == '-' && b == '-') = true
    · have h1 := head_collapseDashes (b :: rest)
      have hEq : a = b := by
        have := Bool.and_elim_left hab
        have := Bool.and_elim_right hab
        simp_all
      simp only [collapseDashes, hab, if_true]
      rw [h1, hEq]
      rfl
    · simp [collapseDashes, hab]

/-- The collapsed list has no two adjacent dashes. -/
theorem noDoubleDash_collapseDashes : ∀ (l : List Char), noDoubleDash (collapseDashes l) = true
  | [] => rfl
  | [_] => rfl
  | a :: b :: rest => by
    by_cases hab : (a == '-' && b == '-') = true
    · simpa [collapseDashes, hab] using noDoubleDash_collapseDashes (b :: rest)
    · have ih := noDoubleDash_collapseDashes (b :: rest)
      have hh := head_collapseDashes (b :: rest)
      simp only [collapseDashes, hab, if_false, Bool.false_eq_true]
      cases hcb : collapseDashes (b :: rest) with
      | nil => rfl
      | cons d tail =>
        have hdb : d = b := by
          rw [hcb] at hh
          simpa using hh
        rw [hcb] at ih
        simp only [noDoubleDash, Bool.and_eq_true]
        constructor
        · rw [hdb]
          cases hx : (a == '-' && b == '-') with
          | false => rfl
          | true => exact absurd hx hab
        · exact ih

/-- A list with no adjacent dashes is a fixed point of the collapse. -/
theorem collapseDashes_eq_self : ∀ (l : List Char), noDoubleDash l = true → collapseDashes l = l
  | [], _ => rfl
  | [_], _ => rfl
  | a :: b :: rest, h => by
    simp only [noDoubleDash, Bool.and_eq_true, Bool.not_eq_true'] at h
    obtain ⟨h1, h2⟩ := h
    simp only [collapseDashes, h1, if_false, Bool.false_eq_true]
    rw [collapseDashes_eq_self (b :: rest) h2]

/-- A list of kept characters is a fixed point of the substitution. -/
theorem map_replaceChar_eq_self :
    ∀ (l : List Char), (∀ c ∈ l, isKeptChar c = true) → l.map replaceChar = l
  | [], _ => rfl
  | c :: rest, h => by
    simp only [List.map_cons, replaceChar, h c (List.mem_cons_self c rest), if_true]
    rw [map_replaceChar_eq_self rest (fun d hd => h d (List.mem_cons_of_mem c hd))]

/-- C8: canonicalization is idempotent: for every string `s`,
`canonical_flowsheet_name (canonical_flowsheet_name s) =
canonical_flowsheet_name s`. -/
theorem canonical_flowsheet_name_idempotent (s : String) :
    canonical_flowsheet_name (canonical_flowsheet_name s) = canonical_flowsheet_name s := by
  show String.mk (collapseDashes ((collapseDashes (s.data.map replaceChar)).map replaceChar))
      = String.mk (collapseDashes (s.data.map replaceChar))
  have hkept : ∀ c ∈ collapseDashes (s.data.map replaceChar), isKeptChar c = true := by
    intro c hc
    have hc' := mem_collapseDashes _ c hc
    rcases List.mem_map.mp hc' with ⟨d, _, rfl⟩
    exact isKeptChar_replaceChar d
  rw [map_replaceChar_eq_self _ hkept,
    collapseDashes_eq_self _ (noDoubleDash_collapseDashes (s.data.map replaceChar))]

/-- C3: the code replaces the tilde, an RFC 3986 unreserved character
that both the spec and the function docstring say is preserved, with
a dash: `canonical_flowsheet_name "~" = "-"`, not `"~"`. -/
theorem canonical_flowsheet_name_tilde :
    canonical_flowsheet_name "~" = "-" ∧ canonical_flowsheet_name "~" ≠ "~" := by
  constructor
  · decide
  · decide

/-! ## Document lemmas and reconciliation theorems (claims C1, C2, C7, C9) -/

/-- Lookup in a concatenation finds the left value when present. -/
theorem docLookup_append_of_isSome {V : Type} (k : String) :
    ∀ (l r : List (String × V)), (docLookup k l).isSome →
      docLookup k (l ++ r) = docLookup k l
  | [], _, h => by simp [docLookup] at h
  | (k1, v1) :: rest, r, h => by
    by_cases hk : k1 = k
    · simp [docLookup, hk]
    · simp only [docLookup, hk, if_false] at h
      simp only [List.cons_append, docLookup, hk, if_false]
      exact docLookup_append_of_isSome k rest r h

/-- Lookup in a concatenation falls through to the right part when
the key is absent on the left. -/
theorem docLookup_append_of_none {V : Type} (k : String) :
    ∀ (l r : List (String × V)), docLookup k l = none →
      docLookup k (l ++ r) = docLookup k r
  | [], _, _ => rfl
  | (k1, v1) :: rest, r, h => by
    by_cases hk : k1 = k
    · simp [docLookup, hk] at h
    · simp only [docLookup, hk, if_false] at h
      simp only [List.cons_append, docLookup, hk, if_false]
      exact docLookup_append_of_none k rest r h

/-- Filtering by a predicate on entries that holds on every entry
with key `k` does not change the value found at `k`. -/
theorem docLookup_filter {V : Type} (k : String) (p : String × V → Bool)
    (hp : ∀ v : V, p (k, v) = true) :
    ∀ (l : List (String × V)), docLookup k (l.filter p) = docLookup k l
  | [] => rfl
  | (k1, v1) :: rest => by
    by_cases hk : k1 = k
    · subst hk
      simp only [List.filter_cons, hp v1, if_true, docLookup, if_pos rfl]
    · cases hpv : p (k1, v1) with
      | true =>
        simp only [List.filter_cons, hpv, if_true, docLookup, hk, if_false]
        exact docLookup_filter k p hp rest
      | false =>
        simp only [List.filter_cons, hpv, Bool.false_eq_true, if_false, docLookup, hk,
          if_false]
        exact docLookup_filter k p hp rest

/-- In the merged document, a key present in the live document has
the live value. -/
theorem mergedDoc_lookup_live {V : Type} [DecidableEq V]
    (saved live : List (String × V)) (k : String) (h : (docLookup k live).isSome) :
    docLookup k (mergedDoc saved live) = docLookup k live :=
  docLookup_append_of_isSome k live _ h

/-- In the merged document, a key absent from the live document has
its stored value. -/
theorem mergedDoc_lookup_stored {V : Type} [DecidableEq V]
    (saved live : List (String × V)) (k : String) (h : docLookup k live = none) :
    docLookup k (mergedDoc saved live) = docLookup k saved := by
  unfold mergedDoc
  rw [docLookup_append_of_none k live _ h]
  exact docLookup_filter k _ (fun v => by simp [h]) saved

/-- Extensionally equal documents produce an empty diff. -/
theorem diffKeys_eq_nil_of_lookup_eq {V : Type} [DecidableEq V]
    (saved live : List (String × V))
    (h : ∀ k, docLookup k saved = docLookup k live) :
    diffKeys saved live = [] := by
  unfold diffKeys
  rw [List.filter_eq_nil_iff]
  intro k _
  simp [h k]

/-- `dict` assignment stores the value under the key. -/
theorem docLookup_dictInsert {V : Type} (k : String) (v : V) :
    ∀ (l : List (String × V)), docLookup k (dictInsert l k v) = some v
  | [] => by simp [dictInsert, docLookup]
  | (k1, v1) :: rest => by
    by_cases hk : k1 = k
    · simp [dictInsert, hk, docLookup]
    · simp only [dictInsert, hk, if_false, docLookup]
      exact docLookup_dictInsert k v rest

/-- C1: when the stored and live documents differ, `update_flowsheet`
produces the key-level-override merge: every top-level key present in
the live document takes the live value, and every top-level key
present only in the stored document keeps its stored value. -/
theorem update_flowsheet_merge_key_override {Obj V : Type} [DecidableEq V]
    (ser : String → Obj → Except String (List (String × V)))
    (s : FlowsheetServer Obj V) (id : String)
    (saved live : List (String × V)) (obj : Obj)
    (hsaved : docLookup id s.dsm = some (some saved))
    (hobj : docLookup id s.flowsheets = some obj)
    (hser : ser id obj = .ok live)
    (hdiff : diffKeys saved live ≠ []) :
    update_flowsheet ser s id
      = .ok (dsm_save s id (mergedDoc saved live), mergedDoc saved live) ∧
    (∀ k, (docLookup k live).isSome →
      docLookup k (mergedDoc saved live) = docLookup k live) ∧
    (∀ k, docLookup k live = none → (docLookup k saved).isSome →
      docLookup k (mergedDoc saved live) = docLookup k saved) := by
  refine ⟨?_, fun k hk => mergedDoc_lookup_live saved live k hk,
    fun k hk _ => mergedDoc_lookup_stored saved live k hk⟩
  simp [update_flowsheet, hsaved, hobj, hser, hdiff]

/-- C1 witness: the spec example — stored
`{"a": 1, "layout": {"x": 5}}`, live `{"a": 2}` — merges to
`{"a": 2, "layout": {"x": 5}}`, which is the returned document. -/
theorem update_flowsheet_merge_key_override_witness :
    update_flowsheet exSer exServer "fs"
      = .ok (dsm_save exServer "fs" (mergedDoc exStored exLive), mergedDoc exStored exLive) ∧
    mergedDoc exStored exLive = [("a", jnum 2), ("layout", jobj [("x", 5)])] :=
  ⟨(update_flowsheet_merge_key_override exSer exServer "fs" exStored exLive ()
      rfl rfl rfl (by decide)).1, by decide⟩

/-- C2: when the stored document is deeply structurally equal to the
freshly serialized live document, `update_flowsheet` performs no save
— the server state, and with it every persisted store content, is
returned unchanged — and the stored document itself is returned. -/
theorem update_flowsheet_no_diff_no_save {Obj V : Type} [DecidableEq V]
    (ser : String → Obj → Except String (List (String × V)))
    (s : FlowsheetServer Obj V) (id : String)
    (saved live : List (String × V)) (obj : Obj)
    (hsaved : docLookup id s.dsm = some (some saved))
    (hobj : docLookup id s.flowsheets = some obj)
    (hser : ser id obj = .ok live)
    (heq : ∀ k, docLookup k saved = docLookup k live) :
    update_flowsheet ser s id = .ok (s, saved) := by
  simp [update_flowsheet, hsaved, hobj, hser, diffKeys_eq_nil_of_lookup_eq saved live heq]

/-- C2 witness: a server whose stored document already equals the
serialized live document is returned untouched together with the
stored document. -/
theorem update_flowsheet_no_diff_no_save_witness :
    update_flowsheet exSer exServerSame "fs" = .ok (exServerSame, exLive) :=
  update_flowsheet_no_diff_no_save exSer exServerSame "fs" exLive exLive ()
    rfl rfl rfl (fun _ => rfl)

/-- C7: `update_flowsheet` discriminates its failure causes — an
identifier never registered yields `FlowsheetUnknown`; one registered
whose store was never written yields `FlowsheetNotFoundInDatastore`;
one with a persisted document but no live in-memory object yields
`FlowsheetNotFoundInMemory`; a serializer failure yields
`ProcessingError`; and no input can yield two different errors. -/
theorem update_flowsheet_error_discrimination {Obj V : Type} [DecidableEq V]
    (ser : String → Obj → Except String (List (String × V)))
    (s : FlowsheetServer Obj V) (id : String) :
    (docLookup id s.dsm = none →
      update_flowsheet ser s id = .error (.flowsheetUnknown id)) ∧
    (docLookup id s.dsm = some none →
      update_flowsheet ser s id = .error (.flowsheetNotFoundInDatastore id)) ∧
    (∀ saved, docLookup id s.dsm = some (some saved) →
      docLookup id s.flowsheets = none →
      update_flowsheet ser s id = .error (.flowsheetNotFoundInMemory id)) ∧
    (∀ saved obj e, docLookup id s.dsm = some (some saved) →
      docLookup id s.flowsheets = some obj → ser id obj = .error e →
      update_flowsheet ser s id
        = .error (.processingError ("Cannot serialize flowsheet: " ++ e))) ∧
    (∀ e1 e2, update_flowsheet ser s id = .error e1 →
      update_flowsheet ser s id = .error e2 → e1 = e2) := by
  refine ⟨?_, ?_, ?_, ?_, ?_⟩
  · intro h
    simp [update_flowsheet, h]
  · intro h
    simp [update_flowsheet, h]
  · intro saved h1 h2
    simp [update_flowsheet, h1, h2]
  · intro saved obj e h1 h2 h3
    simp [update_flowsheet, h1, h2, h3]
  · intro e1 e2 h1 h2
    rw [h1] at h2
    cases h2
    rfl

/-- C7 witness: the four failure causes at concrete servers — unknown
id, registered-but-never-written store, persisted document with lost
in-memory object, and failing serializer. -/
theorem update_flowsheet_error_discrimination_witness :
    update_flowsheet exSer exServer "nope" = .error (.flowsheetUnknown "nope") ∧
    update_flowsheet exSer exServerNoDoc "fs"
      = .error (.flowsheetNotFoundInDatastore "fs") ∧
    update_flowsheet exSer exServerNoMem "fs"
      = .error (.flowsheetNotFoundInMemory "fs") ∧
    update_flowsheet exSerFail exServer "fs"
      = .error (.processingError "Cannot serialize flowsheet: boom") :=
  ⟨(update_flowsheet_error_discrimination exSer exServer "nope").1 rfl,
   (update_flowsheet_error_discrimination exSer exServerNoDoc "fs").2.1 rfl,
   (update_flowsheet_error_discrimination exSer exServerNoMem "fs").2.2.1 exStored rfl rfl,
   (update_flowsheet_error_discrimination exSerFail exServer "fs").2.2.2.1
     exStored () "boom" rfl rfl rfl⟩

/-- C9: `get_setting` never fails — the handler always answers with
a 200 response; a key that was added yields its stored value, and a
key never added yields the null/unset value. -/
theorem get_setting_never_fails {Obj V : Type} (s : FlowsheetServer Obj V) (key : String) :
    (handler_get_setting s key).1 = 200 ∧
    (∀ v, get_setting (add_setting s key v) key = some v) ∧
    (docLookup key s.settings_block = none → handler_get_setting s key = (200, none)) := by
  refine ⟨rfl, ?_, ?_⟩
  · intro v
    exact docLookup_dictInsert key v s.settings_block
  · intro h
    simp [handler_get_setting, get_setting, h]

/-- C9 witness: on a server with no settings, the known key added via
`add_setting` is returned and an unknown key yields the null
response. -/
theorem get_setting_never_fails_witness :
    get_setting (add_setting exServer "save_time_interval" (jnum 5000))
      "save_time_interval" = some (jnum 5000) ∧
    handler_get_setting exServer "no_such_key" = (200, none) :=
  ⟨(get_setting_never_fails exServer "save_time_interval").2.1 (jnum 5000),
   (get_setting_never_fails exServer "no_such_key").2.2 rfl⟩

/-! ## Save-path resolution theorems (claims C5, C6, C10) -/

/-- A probe standing at a free path stops immediately. -/
theorem probeLoop_stop (fs : FileSys) (save_dir name : String) (p : FsPath) (c : Nat)
    (hp : pathExists fs p = false) :
    ∀ rem, probeLoop fs save_dir name rem p c = (p, c)
  | 0 => rfl
  | rem + 1 => by simp [probeLoop, hp]

/-- The probe loop finds the first free versioned index `k`, provided
the fuel reaches it: starting at an existing path with counter `c`,
with every versioned index strictly between `c` and `k` occupied and
index `k` free, the loop stops at the versioned path `k` with counter
`k`. -/
theorem probeLoop_firstFree (fs : FileSys) (save_dir name : String) (k : Nat)
    (hfree : pathExists fs ⟨save_dir, versionedFile name k⟩ = false) (rem : Nat) :
    ∀ (c : Nat) (p : FsPath), pathExists fs p = true → c < k → k ≤ c + rem →
      (∀ j, c < j → j < k → pathExists fs ⟨save_dir, versionedFile name j⟩ = true) →
      probeLoop fs save_dir name rem p c = (⟨save_dir, versionedFile name k⟩, k) := by
  induction rem with
  | zero =>
    intro c p hp hck hkr hb
    omega
  | succ rem ih =>
    intro c p hp hck hkr hb
    simp only [probeLoop, hp, if_true]
    by_cases hck1 : c + 1 = k
    · rw [hck1]
      exact probeLoop_stop fs save_dir name _ k hfree rem
    · have hp1 : pathExists fs ⟨save_dir, versionedFile name (c + 1)⟩ = true :=
        hb (c + 1) (by omega) (by omega)
      exact ih (c + 1) _ hp1 (by omega) (by omega)
        (fun j hj1 hj2 => hb j (by omega) hj2)

/-- When every probed path exists, the loop burns all its fuel and the
counter ends at `c + rem`. -/
theorem probeLoop_exhaust (fs : FileSys) (save_dir name : String) (rem : Nat) :
    ∀ (c : Nat) (p : FsPath), pathExists fs p = true →
      (∀ j, c < j → j < c + rem → pathExists fs ⟨save_dir, versionedFile name j⟩ = true) →
      (probeLoop fs save_dir name rem p c).2 = c + rem := by
  induction rem with
  | zero =>
    intro c p hp hb
    simp [probeLoop]
  | succ rem ih =>
    intro c p hp hb
    simp only [probeLoop, hp, if_true]
    cases Nat.eq_zero_or_pos rem with
    | inl h0 =>
      subst h0
      simp [probeLoop]
    | inr hpos =>
      have hp1 : pathExists fs ⟨save_dir, versionedFile name (c + 1)⟩ = true :=
        hb (c + 1) (by omega) (by omega)
      rw [ih (c + 1) _ hp1 (fun j hj1 hj2 => hb j (by omega) (by omega))]
      omega

/-- Resolution core: with no overwrite and an existing base path, the
first free versioned index below the effective ceiling is selected. -/
theorem handle_ok_of_first_free (fs : FileSys) (name : String) (save_path : FsPath)
    (max_versions k : Nat)
    (hex : pathExists fs save_path = true)
    (hk1 : 1 ≤ k)
    (hfree : pathExists fs ⟨save_path.dir, versionedFile name k⟩ = false)
    (hbusy : ∀ j, 1 ≤ j → j < k →
      pathExists fs ⟨save_path.dir, versionedFile name j⟩ = true)
    (hceil : k < effectiveMaxVersions max_versions) :
    handle_existing_save_path fs name save_path max_versions false
      = (fs, .ok ⟨save_path.dir, versionedFile name k⟩) := by
  have hloop := probeLoop_firstFree fs save_path.dir name k hfree
    (effectiveMaxVersions max_versions) 0 save_path hex (by omega) (by omega)
    (fun j hj1 hj2 => hbusy j (by omega) hj2)
  have hne : ¬(k = effectiveMaxVersions max_versions) := by omega
  simp [handle_existing_save_path, hex, hloop, hne]

/-- Resolution core: when every versioned index strictly below the
effective ceiling is occupied, resolution fails with the
`TooManySavedVersions` message carrying the ceiling and the name. -/
theorem handle_error_of_all_busy (fs : FileSys) (name : String) (save_path : FsPath)
    (max_versions : Nat)
    (hex : pathExists fs save_path = true)
    (hbusy : ∀ j, 1 ≤ j → j < effectiveMaxVersions max_versions →
      pathExists fs ⟨save_path.dir, versionedFile name j⟩ = true) :
    handle_existing_save_path fs name save_path max_versions false
      = (fs, .error (tooManyVersionsMsg (effectiveMaxVersions max_versions) name)) := by
  have hloop := probeLoop_exhaust fs save_path.dir name
    (effectiveMaxVersions max_versions) 0 save_path hex
    (fun j hj1 hj2 => hbusy j (by omega) (by omega))
  simp [handle_existing_save_path, hex, hloop]

/-- C5 (amended): for an existing base path without overwrite,
resolution probes `name-1.json`, `name-2.json`, … in increasing order
and selects the first probed path that does not exist, provided its
index is strictly below the effective ceiling; the path
`name-<ceiling>.json` itself is never selected. -/
theorem handle_existing_save_path_selects_first_free (fs : FileSys) (name : String)
    (save_path : FsPath) (max_versions k : Nat)
    (hex : pathExists fs save_path = true)
    (hk1 : 1 ≤ k)
    (hfree : pathExists fs ⟨save_path.dir, versionedFile name k⟩ = false)
    (hbusy : ∀ j, 1 ≤ j → j < k →
      pathExists fs ⟨save_path.dir, versionedFile name j⟩ = true)
    (hceil : k < effectiveMaxVersions max_versions) :
    handle_existing_save_path fs name save_path max_versions false
      = (fs, .ok ⟨save_path.dir, versionedFile name k⟩) :=
  handle_ok_of_first_free fs name save_path max_versions k hex hk1 hfree hbusy hceil

/-- C5 witness: three successive saves of `x` into an empty directory
resolve to `x.json`, `x-1.json`, `x-2.json` in that order (ceiling
`MAX_SAVED_VERSIONS = 100`). -/
theorem handle_existing_save_path_selects_first_free_witness :
    handle_existing_save_path fsEmpty "x" ⟨"d", "x.json"⟩ MAX_SAVED_VERSIONS false
      = (fsEmpty, .ok ⟨"d", "x.json"⟩) ∧
    handle_existing_save_path fsX0 "x" ⟨"d", "x.json"⟩ MAX_SAVED_VERSIONS false
      = (fsX0, .ok ⟨"d", "x-1.json"⟩) ∧
    handle_existing_save_path fsX1 "x" ⟨"d", "x.json"⟩ MAX_SAVED_VERSIONS false
      = (fsX1, .ok ⟨"d", "x-2.json"⟩) := by
  refine ⟨rfl, ?_, ?_⟩
  · have h := handle_existing_save_path_selects_first_free fsX0 "x" ⟨"d", "x.json"⟩
      MAX_SAVED_VERSIONS 1 (by decide) (by omega) (by decide)
      (fun j h1 h2 => by omega) (by decide)
    rw [(by decide : versionedFile "x" 1 = "x-1.json")] at h
    exact h
  · have h := handle_existing_save_path_selects_first_free fsX1 "x" ⟨"d", "x.json"⟩
      MAX_SAVED_VERSIONS 2 (by decide) (by omega) (by decide)
      (fun j h1 h2 => by
        have hj : j = 1 := by omega
        subst hj
        decide)
      (by decide)
    rw [(by decide : versionedFile "x" 2 = "x-2.json")] at h
    exact h

/-- C5 counterexample: with ceiling 2 and files `x.json`, `x-1.json`
present, `x-2.json` is the first probed path that does not exist and
its index equals the ceiling; the claim selects it, but resolution
raises the exhaustion error instead. -/
theorem handle_existing_save_path_ceiling_not_selected :
    (handle_existing_save_path fsX1 "x" ⟨"d", "x.json"⟩ 2 false).2
      = .error (tooManyVersionsMsg 2 "x") ∧
    fsX1 ⟨"d", versionedFile "x" 2⟩ = none ∧
    (handle_existing_save_path fsX1 "x" ⟨"d", "x.json"⟩ 2 false).2
      ≠ .ok ⟨"d", versionedFile "x" 2⟩ := by
  refine ⟨rfl, rfl, ?_⟩
  intro h
  have h2 := (Eq.symm (rfl :
    (handle_existing_save_path fsX1 "x" ⟨"d", "x.json"⟩ 2 false).2
      = .error (tooManyVersionsMsg 2 "x"))).trans h
  exact Except.noConfusion h2

/-- C6 (amended): with an existing base path and no overwrite,
resolution fails with the `TooManySavedVersions` error — whose
message carries the effective ceiling and the base name — exactly
when every versioned index strictly below the effective ceiling
(`max_versions`, with 0 replaced by `sys.maxsize`) is occupied; if
some index strictly below the ceiling is free, resolution succeeds. -/
theorem handle_existing_save_path_too_many_versions (fs : FileSys) (name : String)
    (save_path : FsPath) (max_versions : Nat)
    (hex : pathExists fs save_path = true) :
    ((∀ j, 1 ≤ j → j < effectiveMaxVersions max_versions →
        pathExists fs ⟨save_path.dir, versionedFile name j⟩ = true) →
      handle_existing_save_path fs name save_path max_versions false
        = (fs, .error (tooManyVersionsMsg (effectiveMaxVersions max_versions) name))) ∧
    (∀ k, 1 ≤ k → k < effectiveMaxVersions max_versions →
      pathExists fs ⟨save_path.dir, versionedFile name k⟩ = false →
      (∀ j, 1 ≤ j → j < k →
        pathExists fs ⟨save_path.dir, versionedFile name j⟩ = true) →
      ∃ p, handle_existing_save_path fs name save_path max_versions false
        = (fs, .ok p)) := by
  refine ⟨fun hb => handle_error_of_all_busy fs name save_path max_versions hex hb, ?_⟩
  intro k hk1 hk2 hfree hbusy
  exact ⟨_, handle_ok_of_first_free fs name save_path max_versions k hex hk1 hfree hbusy hk2⟩

/-- C6 witness: the claim's example — ceiling 2 with `name.json`,
`name-1.json`, `name-2.json` all present — fails with the exhaustion
error carrying the ceiling 2 and the base name. -/
theorem handle_existing_save_path_too_many_versions_witness :
    handle_existing_save_path fsN "name" ⟨"d", "name.json"⟩ 2 false
      = (fsN, .error (tooManyVersionsMsg 2 "name")) := by
  have hem : effectiveMaxVersions 2 = 2 := rfl
  have h := (handle_existing_save_path_too_many_versions fsN "name" ⟨"d", "name.json"⟩ 2
    (by decide)).1 (fun j h1 h2 => by
      rw [hem] at h2
      have hj : j = 1 := by omega
      subst hj
      decide)
  rw [hem] at h
  exact h

/-- C6 counterexample: with ceiling 3 and files `y.json`, `y-1.json`,
`y-2.json` present but `y-3.json` free, the probe never exceeds the
ceiling — the first free index equals it — yet resolution fails with
the exhaustion error. -/
theorem handle_existing_save_path_fails_without_exceeding :
    (handle_existing_save_path fsY "y" ⟨"d", "y.json"⟩ 3 false).2
      = .error (tooManyVersionsMsg 3 "y") ∧
    fsY ⟨"d", versionedFile "y" 3⟩ = none :=
  ⟨rfl, rfl⟩

/-- C10: with overwrite requested and the resolved save path already
existing on disk, save-path resolution itself truncates the file to
empty content — before any document is serialized or saved — so if
registering the flowsheet subsequently fails without writing, the
previously persisted document is already gone. -/
theorem visualize_overwrite_truncates_before_save (fs0 : FileSys) (name : String)
    (save_path : FsPath) (old : String)
    (add_flowsheet : FileSys → FsPath → FileSys × Option String)
    (hold : fs0 save_path = some old)
    (hne : old ≠ "")
    (hfail : ∀ fs p, (add_flowsheet fs p).2.isSome = true → (add_flowsheet fs p).1 = fs) :
    ((handle_existing_save_path fs0 name save_path MAX_SAVED_VERSIONS true).1 save_path
      = some "") ∧
    (∀ e, (visualize_save_setup fs0 name save_path false true add_flowsheet).2
        = .error e →
      (visualize_save_setup fs0 name save_path false true add_flowsheet).1 save_path
          = some "" ∧
      (visualize_save_setup fs0 name save_path false true add_flowsheet).1 save_path
          ≠ some old) := by
  have hex : pathExists fs0 save_path = true := by
    simp [pathExists, hold]
  have hh : handle_existing_save_path fs0 name save_path MAX_SAVED_VERSIONS true
      = (fsWrite fs0 save_path "", .ok save_path) := by
    simp [handle_existing_save_path, hex]
  have hw : fsWrite fs0 save_path "" save_path = some "" := by
    simp [fsWrite]
  refine ⟨by rw [hh]; exact hw, ?_⟩
  intro e
  rcases hA : add_flowsheet (fsWrite fs0 save_path "") save_path with ⟨fs2, r⟩
  cases r with
  | none =>
    intro herr
    rw [visualize_save_setup] at herr
    simp only [hex, Bool.true_and, Bool.and_false, Bool.false_eq_true, if_false, hh,
      hA] at herr
    exact Except.noConfusion herr
  | some err =>
    intro _
    have hfs2 : fs2 = fsWrite fs0 save_path "" := by
      have := hfail (fsWrite fs0 save_path "") save_path
      rw [hA] at this
      exact this rfl
    have hvis : (visualize_save_setup fs0 name save_path false true add_flowsheet).1
        = fs2 := by
      rw [visualize_save_setup]
      simp only [hex, Bool.and_false, Bool.false_eq_true, if_false, hh, hA]
    rw [hvis, hfs2, hw]
    exact ⟨rfl, fun hc => hne (Option.some.inj hc).symm⟩

/-- C10 witness: a directory whose `z.json` holds a document,
overwrite requested, registration failing — the resolved file is
empty and the old document is gone. -/
theorem visualize_overwrite_truncates_before_save_witness :
    (visualize_save_setup fsZ "z" ⟨"d", "z.json"⟩ false true addFlowsheetFail).1
      ⟨"d", "z.json"⟩ = some "" ∧
    (visualize_save_setup fsZ "z" ⟨"d", "z.json"⟩ false true addFlowsheetFail).1
      ⟨"d", "z.json"⟩ ≠ some "old document" :=
  (visualize_overwrite_truncates_before_save fsZ "z" ⟨"d", "z.json"⟩ "old document"
    addFlowsheetFail rfl (by decide) (fun fs p _ => rfl)).2
    (.visualizerError "Cannot add flowsheet: cannot serialize") rfl

/-! ## Diagnostics dispatch theorems (claim C4) -/

/-- C4 counterexample: the set of names `_put_diagnostic` can invoke
is not any fixed, explicitly enumerated allow-list — whether a name
is invoked depends on the attribute set of the toolbox instance, so
no single list decides invocation for all instances. -/
theorem put_diagnostic_no_fixed_allowlist :
    ¬ ∃ allow_list : List String, ∀ (attrs : List String) (fn : String),
      (put_diagnostic ["fs"] attrs (fun _ => "out") "fs" fn).1.isSome
        = allow_list.contains fn := by
  rintro ⟨S, hS⟩
  have h1 := hS ["display_underconstrained_set"] "display_underconstrained_set"
  have h2 := hS [] "display_underconstrained_set"
  simp [put_diagnostic] at h1 h2
  exact h2 h1

/-- C4 (amended): with a known flowsheet id, diagnostics dispatch is
dynamic attribute lookup on the `DiagnosticsToolbox` instance — the
requested name is invoked iff it is among the instance's attribute
names; a member name is invoked and answered 200 with the captured
output, and a non-member name is not invoked and yields only 500
responses. -/
theorem put_diagnostic_dispatch (flowsheet_ids attrs : List String)
    (run : String → String) (id fn : String)
    (hid : flowsheet_ids.contains id = true) :
    ((put_diagnostic flowsheet_ids attrs run id fn).1.isSome = attrs.contains fn) ∧
    (attrs.contains fn = true →
      put_diagnostic flowsheet_ids attrs run id fn = (some fn, [(200, run fn)])) ∧
    (attrs.contains fn = false →
      put_diagnostic flowsheet_ids attrs run id fn
        = (none, [(500, "Unknown function: " ++ fn),
                  (500, "Error running diagnostics")])) := by
  have hid2 : id ∈ flowsheet_ids := by simpa using hid
  refine ⟨?_, ?_, ?_⟩
  · cases hc : attrs.contains fn with
    | true =>
      have hc2 : fn ∈ attrs := by simpa using hc
      simp [put_diagnostic, hid2, hc2]
    | false =>
      have hc2 : fn ∉ attrs := by simpa using hc
      simp [put_diagnostic, hid2, hc2]
  · intro hc
    have hc2 : fn ∈ attrs := by simpa using hc
    simp [put_diagnostic, hid2, hc2]
  · intro hc
    have hc2 : fn ∉ attrs := by simpa using hc
    simp [put_diagnostic, hid2, hc2]

/-- C4 witness: with attribute set
`["report_structural_issues"]`, the member name is invoked with a 200
response and a non-member name yields only the two 500 responses. -/
theorem put_diagnostic_dispatch_witness :
    put_diagnostic ["fs"] ["report_structural_issues"] (fun _ => "out") "fs"
      "report_structural_issues" = (some "report_structural_issues", [(200, "out")]) ∧
    put_diagnostic ["fs"] ["report_structural_issues"] (fun _ => "out") "fs" "spy"
      = (none, [(500, "Unknown function: spy"), (500, "Error running diagnostics")]) :=
  ⟨(put_diagnostic_dispatch ["fs"] ["report_structural_issues"] (fun _ => "out") "fs"
      "report_structural_issues" rfl).2.1 rfl,
   (put_diagnostic_dispatch ["fs"] ["report_structural_issues"] (fun _ => "out") "fs"
      "spy" rfl).2.2 rfl⟩

end IdaesUI
